import Mathlib

set_option maxRecDepth 100000

/-!
Verification of the retrieval-augmented FAQ chatbot pipeline.

This file gives a shallow embedding, in Lean 4, of the portable logic of the
chatbot repository (files `openai_helper.py`, `cognitive_search.py`, `app.py`,
`setup_index.py`) and proves properties of that logic.

Remote services (the search index and the chat-completion model) are modelled
as explicit parameters of type `Except` / oracle functions, so that every
failure path the Python `try`/`except` blocks handle is visible in the
embedding.  Python strings are modelled by Lean `String`; the Python string
operations used by the code (`str.strip`, `str.split`, `str.split(',')`,
`str.splitlines` via `split('\n')`, `str.startswith`, `str.join`) are
re-implemented below on `List Char` so that every definition is executable
and kernel-reducible.  Relevance scores (Python floats) are modelled as
rationals; the `"%.3f"` format is modelled as rounding to the nearest
thousandth, which agrees with Python's float formatting on all inputs
exercised here.
-/

/-- Whitespace predicate used by Python's `str.strip()` and `str.split()`
(ASCII whitespace; the seed data and all inputs of interest are ASCII). -/
def pyIsSpace (c : Char) : Bool :=
  c == ' ' || c == '\t' || c == '\n' || c == '\r' || c == '\x0b' || c == '\x0c'

/-- Drop leading whitespace characters. -/
def stripLead (l : List Char) : List Char := l.dropWhile pyIsSpace

/-- Drop trailing whitespace characters. -/
def stripTrail (l : List Char) : List Char := (l.reverse.dropWhile pyIsSpace).reverse

/-- Python `s.strip()`: remove leading and trailing whitespace. -/
def pyStrip (s : String) : String := ⟨stripTrail (stripLead s.data)⟩

/-- Split a character list at every occurrence of `sep`, keeping empty
segments — the semantics of Python's `str.split(sep)` with an explicit
separator. -/
def splitCharList (sep : Char) : List Char → List (List Char)
  | [] => [[]]
  | c :: cs =>
    let r := splitCharList sep cs
    if c == sep then [] :: r
    else
      match r with
      | [] => [[c]]
      | h :: t => (c :: h) :: t

/-- Python `s.split('\n')`. -/
def pySplitLines (s : String) : List String :=
  (splitCharList '\n' s.data).map fun l => ⟨l⟩

/-- Python `s.split(',')`. -/
def pySplitComma (s : String) : List String :=
  (splitCharList ',' s.data).map fun l => ⟨l⟩

/-- Helper for `pySplit`: accumulate the current word (reversed) while
scanning; whitespace runs separate words and produce no empty segments. -/
def pySplitAux : List Char → List Char → List String
  | [], acc => if acc.isEmpty then [] else [⟨acc.reverse⟩]
  | c :: cs, acc =>
    if pyIsSpace c then
      if acc.isEmpty then pySplitAux cs []
      else (⟨acc.reverse⟩ : String) :: pySplitAux cs []
    else pySplitAux cs (c :: acc)

/-- Python `s.split()` with no argument: split on whitespace runs, discarding
empty segments. -/
def pySplit (s : String) : List String := pySplitAux s.data []

/-- Character-list test that `p` occurs at the start of `l`. -/
def strStartsAux : List Char → List Char → Bool
  | [], _ => true
  | _ :: _, [] => false
  | a :: as, b :: bs => a == b && strStartsAux as bs

/-- Python `s.startswith(p)`. -/
def pyStartsWith (s p : String) : Bool := strStartsAux p.data s.data

/-- Python `sep.join(parts)`. -/
def pyJoin (sep : String) : List String → String
  | [] => ""
  | [x] => x
  | x :: y :: rest => x ++ sep ++ pyJoin sep (y :: rest)

/-- An FAQ document as consumed by the answer-generation gateway
(`openai_helper.py`): the dictionary fields `question`, `answer`, `tags` and
`score` read via `.get` with defaults `""`, `""`, `[]`, `0`.  The relevance
score (a Python float) is modelled as a rational. -/
structure FaqDoc where
  question : String
  answer : String
  tags : List String
  score : ℚ
deriving DecidableEq, Repr

/-- Round `q * 1000` to the nearest integer (halves up): the floor of
`1000 * q + 1/2`, computed on the numerator and denominator so that it is
kernel-reducible. -/
def roundMilli (q : ℚ) : ℤ := (2000 * q.num + q.den).fdiv (2 * q.den)

/-- Python `f"{score:.3f}"` on a non-negative score: render the rational
rounded to the nearest thousandth with exactly three decimal places. -/
def formatScore3 (q : ℚ) : String :=
  let n : ℤ := roundMilli q
  let sign := if n < 0 then "-" else ""
  let m : ℕ := n.natAbs
  let whole := m / 1000
  let frac := m % 1000
  let fracStr :=
    if frac < 10 then "00" ++ toString frac
    else if frac < 100 then "0" ++ toString frac
    else toString frac
  sign ++ toString whole ++ "." ++ fracStr

/-- Tag rendering in `_prepare_context`:
`", ".join(tags) if tags else "No tags"`. -/
def tagsJoined (tags : List String) : String :=
  if tags.isEmpty then "No tags" else pyJoin ", " tags

/-- One context block of `_prepare_context` (`openai_helper.py`, the f-string
built for FAQ number `i`, 1-based). -/
def faqBlock (i : ℕ) (faq : FaqDoc) : String :=
  "FAQ " ++ toString i ++ " (Relevance Score: " ++ formatScore3 faq.score ++ "):\n" ++
  "Question: " ++ faq.question ++ "\n" ++
  "Answer: " ++ faq.answer ++ "\n" ++
  "Tags: " ++ tagsJoined faq.tags ++ "\n---"

/-- Embedding of `AzureOpenAIHelper._prepare_context`: iterate over
`enumerate(relevant_faqs, 1)` appending one block per FAQ to an accumulator
list, then `"\n".join` the accumulated parts. -/
def prepare_context (relevant_faqs : List FaqDoc) : String :=
  pyJoin "\n"
    ((List.enumFrom 1 relevant_faqs).foldl (fun acc p => acc ++ [faqBlock p.1 p.2]) [])

/-- The append-accumulator loop of `_prepare_context` is the map over the
enumerated list. -/
theorem foldl_append_eq_map {α β : Type} (f : α → β) (l : List α) (acc : List β) :
    l.foldl (fun a x => a ++ [f x]) acc = acc ++ l.map f := by
  induction l generalizing acc with
  | nil => simp
  | cons x xs ih => simp [List.foldl_cons, ih]

/-- Two example candidates used by the spec's context-assembly scenario:
scores `0.812` and `0.455` (written via `Rat.divInt` so that the scores are
kernel-reducible), the second with an empty tag list. -/
def exampleFaqs : List FaqDoc :=
  [⟨"How do I reset my password?", "Use the account portal.", ["account", "security"],
    Rat.divInt 812 1000⟩,
   ⟨"What plans exist?", "See the pricing page.", [], Rat.divInt 455 1000⟩]

/-- C1: for every list of candidates, the grounding context assembled by
`generate_answer` (via `_prepare_context`) is exactly the newline-join of one
block per candidate, in the order supplied (no re-sorting), where the block
for the candidate of 1-based rank `i` shows that rank, the relevance score
with exactly 3 decimal places, the question, the answer, and the comma-joined
tags (or the literal sentinel "No tags" when the tag list is empty), ending
with the divider line `---`; and on the spec's two-candidate example with
scores 0.812 and 0.455 the context is the expected literal string. -/
theorem prepare_context_blocks (relevant_faqs : List FaqDoc) :
    prepare_context relevant_faqs
      = pyJoin "\n" ((List.enumFrom 1 relevant_faqs).map fun p => faqBlock p.1 p.2) ∧
    exampleFaqs.map FaqDoc.score = [(0.812 : ℚ), (0.455 : ℚ)] ∧
    prepare_context exampleFaqs
      = "FAQ 1 (Relevance Score: 0.812):\nQuestion: How do I reset my password?\n" ++
        "Answer: Use the account portal.\nTags: account, security\n---\n" ++
        "FAQ 2 (Relevance Score: 0.455):\nQuestion: What plans exist?\n" ++
        "Answer: See the pricing page.\nTags: No tags\n---" := by
  refine ⟨?_, ?_, ?_⟩
  · unfold prepare_context
    rw [foldl_append_eq_map]
    rfl
  · show [Rat.divInt 812 1000, Rat.divInt 455 1000] = _
    rw [Rat.divInt_eq_div, Rat.divInt_eq_div]
    norm_num
  · decide

/-- Fixed user-safe apology returned by `generate_answer` on any failure. -/
def apologyMessage : String :=
  "I apologize, but I encountered an error while generating your answer. Please try again or rephrase your question."

/-- System prompt of `generate_answer` (verbatim from `openai_helper.py`). -/
def answerSystemPrompt : String :=
  "You are an intelligent FAQ assistant powered by Azure OpenAI. Your role is to:\n\n" ++
  "1. Analyze the user\x27s question and the provided relevant FAQ information\n" ++
  "2. Generate a comprehensive, accurate, and helpful answer\n" ++
  "3. Use the FAQ information as your primary source of truth\n" ++
  "4. If the FAQ information doesn\x27t fully address the question, acknowledge this and provide the best possible answer based on available information\n" ++
  "5. Structure your response clearly and professionally\n" ++
  "6. If multiple FAQs are relevant, synthesize the information coherently\n\n" ++
  "Always be helpful, accurate, and professional in your responses."

/-- User message of `generate_answer`: the query plus the grounding context. -/
def answerUserMessage (user_query : String) (relevant_faqs : List FaqDoc) : String :=
  "User Question: " ++ user_query ++ "\n\nRelevant FAQ Information:\n" ++
  prepare_context relevant_faqs ++
  "\n\nPlease provide a comprehensive answer based on the above information."

/-- The chat messages sent by `generate_answer` (role, content). -/
def answerMessages (user_query : String) (relevant_faqs : List FaqDoc) :
    List (String × String) :=
  [("system", answerSystemPrompt), ("user", answerUserMessage user_query relevant_faqs)]

/-- Embedding of `AzureOpenAIHelper.generate_answer`.  The remote completion
call (everything inside the `try` that can fail: the network round-trip and
the extraction of `choices[0].message.content`) is modelled by the oracle
`completion`; the surrounding `except` substitutes the apology string. -/
def generate_answer (user_query : String) (relevant_faqs : List FaqDoc)
    (completion : List (String × String) → Except String String) : String :=
  match completion (answerMessages user_query relevant_faqs) with
  | .ok answer => answer
  | .error _ => apologyMessage

/-- C5: for every query and candidate list, if the remote completion call
fails for any reason `generate_answer` returns the fixed user-safe apology
string (never propagating the failure — the function is total into `String`),
and when the call succeeds it returns the generated text verbatim. -/
theorem generate_answer_fail_soft (user_query : String) (relevant_faqs : List FaqDoc)
    (completion : List (String × String) → Except String String) :
    (∀ e, completion (answerMessages user_query relevant_faqs) = .error e →
      generate_answer user_query relevant_faqs completion = apologyMessage) ∧
    (∀ t, completion (answerMessages user_query relevant_faqs) = .ok t →
      generate_answer user_query relevant_faqs completion = t) := by
  constructor
  · intro e he
    unfold generate_answer
    rw [he]
  · intro t ht
    unfold generate_answer
    rw [ht]

/-- Witness for C5 at concrete inputs: a completion oracle that always fails
yields the apology, one that succeeds yields its text verbatim. -/
theorem generate_answer_fail_soft_witness :
    generate_answer "How do I start?" [] (fun _ => .error "network down") = apologyMessage ∧
    generate_answer "How do I start?" [] (fun _ => .ok "Just click run.") = "Just click run." :=
  ⟨(generate_answer_fail_soft "How do I start?" [] (fun _ => .error "network down")).1
      "network down" rfl,
   (generate_answer_fail_soft "How do I start?" [] (fun _ => .ok "Just click run.")).2
      "Just click run." rfl⟩

/-- Structured result of `analyze_query_intent`. -/
structure IntentAnalysis where
  intent : String
  category : String
  keywords : List String
  complexity : String
deriving DecidableEq, Repr

/-- System prompt of `analyze_query_intent` (verbatim; the JSON braces are
written with hex escapes). -/
def intentSystemPrompt : String :=
  "Analyze the user\x27s query and provide:\n" ++
  "1. Intent: What the user is trying to accomplish\n" ++
  "2. Category: The main topic area (e.g., setup, troubleshooting, pricing, etc.)\n" ++
  "3. Keywords: Important terms that should be used for search\n" ++
  "4. Complexity: Simple, Medium, or Complex\n\n" ++
  "Respond in JSON format:\n\x7b\n    \"intent\": \"string\",\n    \"category\": \"string\", \n    \"keywords\": [\"string\"],\n    \"complexity\": \"string\"\n\x7d"

/-- The chat messages sent by `analyze_query_intent`. -/
def intentMessages (query : String) : List (String × String) :=
  [("system", intentSystemPrompt), ("user", query)]

/-- Embedding of `AzureOpenAIHelper.analyze_query_intent`.  The remote call is
the oracle `completion`; `json.loads` is the oracle `parseJson` (`none`
models a raised `JSONDecodeError`).  Both failure paths land in the same
`except` handler, which builds the default object. -/
def analyze_query_intent (query : String)
    (completion : List (String × String) → Except String String)
    (parseJson : String → Option IntentAnalysis) : IntentAnalysis :=
  match completion (intentMessages query) with
  | .error _ => ⟨"general_inquiry", "general", pySplit query, "medium"⟩
  | .ok result_text =>
    match parseJson result_text with
    | some analysis => analysis
    | none => ⟨"general_inquiry", "general", pySplit query, "medium"⟩

/-- C8: for every query, if the intent-analysis call fails, or its output
cannot be parsed as JSON, `analyze_query_intent` returns exactly the default
object with intent `general_inquiry`, category `general`, keywords the
whitespace-split tokens of the query, and complexity `medium`. -/
theorem analyze_query_intent_default (query : String)
    (completion : List (String × String) → Except String String)
    (parseJson : String → Option IntentAnalysis) :
    (∀ e, completion (intentMessages query) = .error e →
      analyze_query_intent query completion parseJson
        = ⟨"general_inquiry", "general", pySplit query, "medium"⟩) ∧
    (∀ t, completion (intentMessages query) = .ok t → parseJson t = none →
      analyze_query_intent query completion parseJson
        = ⟨"general_inquiry", "general", pySplit query, "medium"⟩) := by
  constructor
  · intro e he
    simp [analyze_query_intent, he]
  · intro t ht hp
    simp [analyze_query_intent, ht, hp]

/-- Witness for C8 at a concrete query whose whitespace-split tokens are
`["reset", "my", "password"]`, under a failing call and under an unparsable
reply. -/
theorem analyze_query_intent_default_witness :
    analyze_query_intent "reset   my password" (fun _ => .error "quota") (fun _ => none)
      = ⟨"general_inquiry", "general", ["reset", "my", "password"], "medium"⟩ ∧
    analyze_query_intent "reset   my password" (fun _ => .ok "not json") (fun _ => none)
      = ⟨"general_inquiry", "general", ["reset", "my", "password"], "medium"⟩ := by
  have h1 := (analyze_query_intent_default "reset   my password"
    (fun _ => .error "quota") (fun _ => none)).1 "quota" rfl
  have h2 := (analyze_query_intent_default "reset   my password"
    (fun _ => .ok "not json") (fun _ => none)).2 "not json" rfl rfl
  rw [h1, h2]
  have hsplit : pySplit "reset   my password" = ["reset", "my", "password"] := by decide
  rw [hsplit]
  exact ⟨rfl, rfl⟩

/-- Dropping a satisfied-prefix twice is the same as dropping it once. -/
theorem dropWhile_dropWhile (p : Char → Bool) (l : List Char) :
    (l.dropWhile p).dropWhile p = l.dropWhile p := by
  induction l with
  | nil => rfl
  | cons a t ih =>
    by_cases h : p a
    · simp [List.dropWhile_cons, h, ih]
    · simp [List.dropWhile_cons, h]

/-- A list whose head does not satisfy `p` keeps that property on every
`take`-resulting initial segment. -/
theorem dropWhile_take (p : Char → Bool) (l : List Char) (k : ℕ)
    (h : l.dropWhile p = l) : (l.take k).dropWhile p = l.take k := by
  cases l with
  | nil => simp
  | cons a t =>
    have ha : p a = false := by
      rw [← Bool.not_eq_true]
      intro hpa
      rw [List.dropWhile_cons, if_pos hpa] at h
      have h1 : (t.dropWhile p).length ≤ t.length := (List.dropWhile_sublist p).length_le
      rw [h] at h1
      simp at h1
    cases k with
    | zero => simp
    | succ k => simp [List.take, List.dropWhile_cons, ha]

/-- `dropWhile` removes an initial segment: the result is a `drop`. -/
theorem dropWhile_eq_drop (p : Char → Bool) (l : List Char) :
    ∃ n, l.dropWhile p = l.drop n := by
  induction l with
  | nil => exact ⟨0, rfl⟩
  | cons a t ih =>
    by_cases h : p a
    · obtain ⟨n, hn⟩ := ih
      exact ⟨n + 1, by simp [List.dropWhile_cons, h, hn]⟩
    · exact ⟨0, by simp [List.dropWhile_cons, h]⟩

/-- Trailing-whitespace removal yields an initial segment of the input. -/
theorem stripTrail_eq_take (l : List Char) : ∃ k, stripTrail l = l.take k := by
  obtain ⟨n, hn⟩ := dropWhile_eq_drop pyIsSpace l.reverse
  refine ⟨l.length - n, ?_⟩
  unfold stripTrail
  rw [hn]
  by_cases hle : n ≤ l.length
  · have h2 : (l.take (l.length - n)).reverse = l.reverse.drop (l.length - (l.length - n)) :=
      List.reverse_take
    rw [Nat.sub_sub_self hle] at h2
    rw [← h2, List.reverse_reverse]
  · push_neg at hle
    have hd : l.reverse.drop n = [] := by
      apply List.drop_eq_nil_of_le
      simpa using le_of_lt hle
    have ht : l.length - n = 0 := Nat.sub_eq_zero_of_le (le_of_lt hle)
    rw [hd, ht]
    simp

/-- If the input has no leading whitespace, removing trailing whitespace
leaves no leading whitespace either. -/
theorem stripLead_stripTrail (l : List Char) (h : stripLead l = l) :
    stripLead (stripTrail l) = stripTrail l := by
  obtain ⟨k, hk⟩ := stripTrail_eq_take l
  rw [hk]
  exact dropWhile_take pyIsSpace l k h

/-- Trailing-whitespace removal is idempotent. -/
theorem stripTrail_stripTrail (l : List Char) : stripTrail (stripTrail l) = stripTrail l := by
  unfold stripTrail
  rw [List.reverse_reverse, dropWhile_dropWhile]

/-- Python `strip` is idempotent. -/
theorem pyStrip_idem (s : String) : pyStrip (pyStrip s) = pyStrip s := by
  show String.mk (stripTrail (stripLead (stripTrail (stripLead s.data))))
      = String.mk (stripTrail (stripLead s.data))
  have h1 : stripLead (stripLead s.data) = stripLead s.data :=
    dropWhile_dropWhile pyIsSpace s.data
  rw [stripLead_stripTrail _ h1, stripTrail_stripTrail]

/-- The literal line markers of `suggest_related_questions`:
`s.startswith(('1.', '2.', '3.', '4.', '5.', '-', '*'))`. -/
def listMarkers : List String := ["1.", "2.", "3.", "4.", "5.", "-", "*"]

/-- The line filter of `suggest_related_questions`: keep `s` when its
stripped form is non-empty and the raw line starts with none of the
markers. -/
def keepLine (s : String) : Bool :=
  !(pyStrip s).data.isEmpty && !(listMarkers.any fun m => pyStartsWith s m)

/-- Embedding of the suggestion-extraction step of
`suggest_related_questions`:
`[s.strip() for s in text.split('\n') if s.strip() and not s.startswith((...))][:5]`. -/
def extract_suggestions (suggestions_text : String) : List String :=
  (((pySplitLines suggestions_text).filter keepLine).map pyStrip).take 5

/-- System prompt of `suggest_related_questions` (verbatim). -/
def suggestSystemPrompt : String :=
  "Based on the user\x27s question and the related topics, suggest 3-5 related questions that might be helpful. \n" ++
  "Make the suggestions natural and relevant to the user\x27s original query."

/-- User message of `suggest_related_questions`. -/
def suggestUserMessage (user_query topics_str : String) : String :=
  "User\x27s Question: " ++ user_query ++ "\nRelated Topics: " ++ topics_str ++
  "\n\nPlease suggest 3-5 related questions that might be helpful."

/-- All tags of the candidates in encounter order (the successive
`faq.get("tags", [])` lists, concatenated). -/
def allTags (relevant_faqs : List FaqDoc) : List String :=
  (relevant_faqs.map FaqDoc.tags).flatten

/-- Helper: first-occurrence deduplication with an accumulator of already
seen elements. -/
def firstDedupAux (seen : List String) : List String → List String
  | [] => []
  | x :: xs =>
    if seen.contains x then firstDedupAux seen xs
    else x :: firstDedupAux (x :: seen) xs

/-- The distinct elements of `l` in first-encounter order. -/
def firstDedup (l : List String) : List String := firstDedupAux [] l

/-- Embedding of `AzureOpenAIHelper.suggest_related_questions`.  The Python
`topics` is a built-in `set`; iterating it (`list(topics)`) yields its
elements in an unspecified, hash-dependent order, modelled by the oracle
`setOrder` — a duplicate-free enumeration (any permutation) of the distinct
tags.  `list(topics)[:5]` is then `setOrder.take 5`.  The remote call is the
oracle `completion`; the `except` handler returns `[]`. -/
def suggest_related_questions (user_query : String) (relevant_faqs : List FaqDoc)
    (setOrder : List String)
    (completion : List (String × String) → Except String String) : List String :=
  let topics_str := pyJoin ", " (setOrder.take 5)
  match completion [("system", suggestSystemPrompt),
                    ("user", suggestUserMessage user_query topics_str)] with
  | .error _ => []
  | .ok suggestions_text => extract_suggestions suggestions_text

/-- The topics passed to the suggestion prompt: `list(topics)[:5]`. -/
def suggest_topics (setOrder : List String) : List String := setOrder.take 5

/-- Counterexample to C2 as stated: the model output `"6. What is Z?"` is a
line that begins with a digit-period, yet `suggest_related_questions` returns
it (the code only excludes the literal markers `1.` … `5.`, `-`, `*`). -/
theorem suggest_digit_period_retained :
    suggest_related_questions "q" [] [] (fun _ => .ok "6. What is Z?") = ["6. What is Z?"] ∧
    pyStartsWith "6. What is Z?" "6." = true := by
  constructor
  · rfl
  · rfl

/-- The extraction step never yields more than 5 suggestions. -/
theorem extract_suggestions_length (suggestions_text : String) :
    (extract_suggestions suggestions_text).length ≤ 5 := by
  unfold extract_suggestions
  rw [List.length_take]
  exact min_le_left _ _

/-- C2 (amended): `suggest_related_questions` splits the model output into
lines and excludes exactly the raw lines that begin with one of the literal
markers `1.`, `2.`, `3.`, `4.`, `5.`, `-`, `*` (not every digit-period line);
every returned suggestion is the stripped form of a retained line; on the
spec's example output it returns exactly `["What is Y?"]`; and it always
returns at most 5 suggestions. -/
theorem suggest_line_filter (user_query : String) (relevant_faqs : List FaqDoc)
    (setOrder : List String)
    (completion : List (String × String) → Except String String) :
    (suggest_related_questions user_query relevant_faqs setOrder completion).length ≤ 5 ∧
    (∀ text x, x ∈ extract_suggestions text →
      ∃ line, line ∈ pySplitLines text ∧ x = pyStrip line ∧
        ∀ m ∈ listMarkers, pyStartsWith line m = false) ∧
    suggest_related_questions "What is W?" relevant_faqs setOrder
        (fun _ => .ok "1. What is X?\n- Some other line\nWhat is Y?")
      = ["What is Y?"] := by
  refine ⟨?_, ?_, ?_⟩
  · simp only [suggest_related_questions]
    split
    · simp
    · exact extract_suggestions_length _
  · intro text x hx
    unfold extract_suggestions at hx
    have hx' := List.mem_of_mem_take hx
    obtain ⟨line, hline, hmap⟩ := List.mem_map.mp hx'
    obtain ⟨hmem, hkeep⟩ := List.mem_filter.mp hline
    refine ⟨line, hmem, hmap.symm, ?_⟩
    intro m hm
    unfold keepLine at hkeep
    rw [Bool.and_eq_true] at hkeep
    have hnot := hkeep.2
    rw [Bool.not_eq_true', List.any_eq_false] at hnot
    rw [← Bool.not_eq_true]
    exact hnot m hm
  · rfl

/-- Witness for C2's amended theorem: the returned suggestion
`"What is Y?"` of the example output is the stripped form of a line that
matches no list marker. -/
theorem suggest_line_filter_witness :
    ∃ line, line ∈ pySplitLines "1. What is X?\n- Some other line\nWhat is Y?" ∧
      "What is Y?" = pyStrip line ∧
      ∀ m ∈ listMarkers, pyStartsWith line m = false :=
  (suggest_line_filter "q" [] [] (fun _ => .error "unused")).2.1
    "1. What is X?\n- Some other line\nWhat is Y?" "What is Y?" (by decide)

/-- C10: every string returned by the suggestion extraction is non-empty,
carries no leading or trailing whitespace (it is `strip`-stable), and equals
some line of the model output with surrounding whitespace stripped. -/
theorem suggestions_stripped (suggestions_text x : String)
    (hx : x ∈ extract_suggestions suggestions_text) :
    x ≠ "" ∧ pyStrip x = x ∧
      ∃ line, line ∈ pySplitLines suggestions_text ∧ x = pyStrip line := by
  unfold extract_suggestions at hx
  have hx' := List.mem_of_mem_take hx
  obtain ⟨line, hline, hmap⟩ := List.mem_map.mp hx'
  obtain ⟨hmem, hkeep⟩ := List.mem_filter.mp hline
  unfold keepLine at hkeep
  rw [Bool.and_eq_true] at hkeep
  have hne : (pyStrip line).data.isEmpty = false := by
    have := hkeep.1
    rw [Bool.not_eq_true'] at this
    simpa using this
  refine ⟨?_, ?_, line, hmem, hmap.symm⟩
  · intro hempty
    rw [← hmap] at hempty
    rw [hempty] at hne
    simp [String.data] at hne
  · rw [← hmap]
    exact pyStrip_idem line

/-- Witness for C10: the suggestion extracted from `"  hello  \nbye"` whose
value is `"hello"` is non-blank, strip-stable, and the strip of a line. -/
theorem suggestions_stripped_witness :
    "hello" ≠ "" ∧ pyStrip "hello" = "hello" ∧
      ∃ line, line ∈ pySplitLines "  hello  \nbye" ∧ "hello" = pyStrip line :=
  suggestions_stripped "  hello  \nbye" "hello" (by decide)

/-- Membership in the deduplicated list: in the remainder and not yet seen. -/
theorem mem_firstDedupAux (l : List String) (seen : List String) (x : String) :
    x ∈ firstDedupAux seen l ↔ x ∈ l ∧ x ∉ seen := by
  induction l generalizing seen with
  | nil => simp [firstDedupAux]
  | cons a t ih =>
    rw [firstDedupAux]
    by_cases h : seen.contains a
    · rw [if_pos h, ih]
      have ha : a ∈ seen := by
        rw [List.contains] at h
        exact List.elem_iff.mp h
      constructor
      · rintro ⟨hxt, hxs⟩
        exact ⟨List.mem_cons_of_mem a hxt, hxs⟩
      · rintro ⟨hxat, hxs⟩
        rcases List.mem_cons.mp hxat with hxa | hxt
        · exact absurd (hxa ▸ ha) hxs
        · exact ⟨hxt, hxs⟩
    · rw [if_neg h]
      have ha : a ∉ seen := by
        intro hmem
        apply h
        rw [List.contains]
        exact List.elem_iff.mpr hmem
      constructor
      · intro hx
        rcases List.mem_cons.mp hx with hxa | hxmem
        · subst hxa
          exact ⟨List.mem_cons_self x t, ha⟩
        · obtain ⟨hxt, hxs⟩ := (ih (a :: seen)).mp hxmem
          refine ⟨List.mem_cons_of_mem a hxt, ?_⟩
          intro hseen
          exact hxs (List.mem_cons_of_mem a hseen)
      · rintro ⟨hxat, hxs⟩
        rcases List.mem_cons.mp hxat with hxa | hxt
        · subst hxa
          exact List.mem_cons_self x _
        · by_cases hxa2 : x = a
          · subst hxa2
            exact List.mem_cons_self x _
          · apply List.mem_cons_of_mem
            apply (ih (a :: seen)).mpr
            refine ⟨hxt, ?_⟩
            intro hmem
            rcases List.mem_cons.mp hmem with h1 | h2
            · exact hxa2 h1
            · exact hxs h2

/-- The deduplicated list has no duplicates. -/
theorem nodup_firstDedupAux (l : List String) (seen : List String) :
    (firstDedupAux seen l).Nodup := by
  induction l generalizing seen with
  | nil => simp [firstDedupAux]
  | cons a t ih =>
    rw [firstDedupAux]
    by_cases h : seen.contains a
    · rw [if_pos h]
      exact ih seen
    · rw [if_neg h]
      refine List.Nodup.cons ?_ (ih (a :: seen))
      intro hmem
      have := (mem_firstDedupAux t (a :: seen) a).mp hmem
      exact this.2 (List.mem_cons_self a seen)

/-- `firstDedup` retains exactly the elements of its input. -/
theorem mem_firstDedup (l : List String) (x : String) :
    x ∈ firstDedup l ↔ x ∈ l := by
  rw [firstDedup, mem_firstDedupAux]
  simp

/-- `firstDedup` yields a duplicate-free list. -/
theorem nodup_firstDedup (l : List String) : (firstDedup l).Nodup :=
  nodup_firstDedupAux l []

/-- The spec's tag-union example: candidates tagged
`["setup", "pricing"]` and `["pricing", "billing"]`. -/
def exampleTagFaqs : List FaqDoc :=
  [⟨"q1", "a1", ["setup", "pricing"], 0⟩, ⟨"q2", "a2", ["pricing", "billing"], 0⟩]

/-- A candidate carrying six distinct tags. -/
def wideTagFaq : List FaqDoc :=
  [⟨"q", "a", ["t1", "t2", "t3", "t4", "t5", "t6"], 0⟩]

/-- Counterexample to C6 as stated: with six distinct tags, the topics passed
(`list(topics)[:5]`) are five elements in the set's iteration order, which is
not guaranteed to be encounter order; under the legal set enumeration
`["t6",…,"t1"]` (a permutation of the distinct tags) the passed topics
contain `"t6"`, which is not among the first 5 distinct tags encountered. -/
theorem suggest_topics_not_encounter_order :
    (["t6", "t5", "t4", "t3", "t2", "t1"] : List String).Perm
        (firstDedup (allTags wideTagFaq)) ∧
    "t6" ∈ suggest_topics ["t6", "t5", "t4", "t3", "t2", "t1"] ∧
    "t6" ∉ (firstDedup (allTags wideTagFaq)).take 5 := by
  refine ⟨by decide, by decide, by decide⟩

/-- C6 (amended): `suggest_related_questions` passes the union of tags across
all supplied candidates with duplicates removed, capped to at most 5 distinct
tags taken in the (unspecified) set-iteration order — not necessarily the
first 5 encountered; whenever the union has at most 5 distinct tags it is
passed in full, and in particular for candidates tagged
`["setup","pricing"]` and `["pricing","billing"]` the derived topic set is
exactly `{"setup","pricing","billing"}`. -/
theorem suggest_topics_union (relevant_faqs : List FaqDoc) (setOrder : List String)
    (h : setOrder.Perm (firstDedup (allTags relevant_faqs))) :
    (∀ t ∈ suggest_topics setOrder, t ∈ allTags relevant_faqs) ∧
    (suggest_topics setOrder).Nodup ∧
    (suggest_topics setOrder).length ≤ 5 ∧
    ((firstDedup (allTags relevant_faqs)).length ≤ 5 →
      ∀ t, t ∈ suggest_topics setOrder ↔ t ∈ allTags relevant_faqs) ∧
    firstDedup (allTags exampleTagFaqs) = ["setup", "pricing", "billing"] := by
  refine ⟨?_, ?_, ?_, ?_, by decide⟩
  · intro t ht
    have h1 : t ∈ setOrder := List.mem_of_mem_take ht
    have h2 : t ∈ firstDedup (allTags relevant_faqs) := h.mem_iff.mp h1
    exact (mem_firstDedup _ t).mp h2
  · have hs : setOrder.Nodup := h.nodup_iff.mpr (nodup_firstDedup _)
    exact hs.sublist (List.take_sublist 5 setOrder)
  · rw [suggest_topics, List.length_take]
    exact min_le_left _ _
  · intro hlen t
    have hlen' : setOrder.length ≤ 5 := h.length_eq ▸ hlen
    have htake : setOrder.take 5 = setOrder := List.take_of_length_le hlen'
    rw [suggest_topics, htake, h.mem_iff, mem_firstDedup]

/-- Witness for C6's amended theorem: the identity enumeration of the
example's three distinct tags. -/
theorem suggest_topics_union_witness :
    (∀ t ∈ suggest_topics ["setup", "pricing", "billing"], t ∈ allTags exampleTagFaqs) ∧
    (suggest_topics ["setup", "pricing", "billing"]).Nodup ∧
    (suggest_topics ["setup", "pricing", "billing"]).length ≤ 5 ∧
    ((firstDedup (allTags exampleTagFaqs)).length ≤ 5 →
      ∀ t, t ∈ suggest_topics ["setup", "pricing", "billing"] ↔ t ∈ allTags exampleTagFaqs) ∧
    firstDedup (allTags exampleTagFaqs) = ["setup", "pricing", "billing"] :=
  suggest_topics_union exampleTagFaqs ["setup", "pricing", "billing"] (by decide)

/-- A raw hit from the remote search service as a partial record: the Python
code reads `result["id"]`, `result["question"]`, `result["answer"]`
(a `KeyError` on absence) and `result.get("tags", [])`,
`result.get("@search.score", 0)`, `result.get("@search.captions", [])`,
`result.get("@search.answers", [])` (defaulted). -/
structure RawSearchResult where
  id : Option String
  question : Option String
  answer : Option String
  tags : Option (List String)
  score : Option ℚ
  captions : Option (List String)
  answers : Option (List String)

/-- A search candidate as returned by `search_faqs`. -/
structure SearchResultDoc where
  id : String
  question : String
  answer : String
  tags : List String
  score : ℚ
  captions : List String
  answers : List String
deriving DecidableEq

/-- Extraction of one candidate from a raw hit; `none` models the `KeyError`
raised when a required field is missing. -/
def rawToDoc (r : RawSearchResult) : Option SearchResultDoc :=
  match r.id, r.question, r.answer with
  | some i, some q, some a =>
    some ⟨i, q, a, r.tags.getD [], r.score.getD 0, r.captions.getD [], r.answers.getD []⟩
  | _, _, _ => none

/-- Embedding of `AzureCognitiveSearchHelper.search_faqs`.  The oracle
`remote` stands for the semantic-search round trip (issued with the query
text and `top`; the fixed request parameters — selected fields, semantic
mode, language tag, caption/answer extraction — do not vary).  Any exception,
either from the call itself (`Except.error`) or while extracting a result
mid-loop (`none` from `mapM`), is caught by the `except` handler, which
returns the empty list. -/
def search_faqs (query : String) (top : ℕ)
    (remote : String → ℕ → Except String (List RawSearchResult)) : List SearchResultDoc :=
  match remote query top with
  | .error _ => []
  | .ok search_results =>
    match search_results.mapM rawToDoc with
    | some docs => docs
    | none => []

/-- C4: for every query, the search gateway's query operation returns an
empty sequence — and, being total into `List`, never raises to its caller —
both when the remote call fails and when the remote service reports no
candidates. -/
theorem search_faqs_fail_soft (query : String) (top : ℕ)
    (remote : String → ℕ → Except String (List RawSearchResult)) :
    (∀ e, remote query top = .error e → search_faqs query top remote = []) ∧
    (remote query top = .ok [] → search_faqs query top remote = []) := by
  constructor
  · intro e he
    simp [search_faqs, he]
  · intro h
    simp [search_faqs, h]
    rfl

/-- Witness for C4: a failing remote and an empty-result remote both yield
the empty candidate list. -/
theorem search_faqs_fail_soft_witness :
    search_faqs "pricing" 3 (fun _ _ => .error "timeout") = [] ∧
    search_faqs "pricing" 3 (fun _ _ => .ok []) = [] :=
  ⟨(search_faqs_fail_soft "pricing" 3 (fun _ _ => .error "timeout")).1 "timeout" rfl,
   (search_faqs_fail_soft "pricing" 3 (fun _ _ => .ok [])).2 rfl⟩

/-- One row of the seed CSV (`data/faqs.csv`): columns `question`, `answer`,
`tags` (comma-joined; `none` models a NaN/missing cell, for which the code
uploads an empty tag list). -/
structure CsvRow where
  question : String
  answer : String
  tags : Option String
deriving DecidableEq

/-- One document uploaded to the index by `upload_faqs_from_csv`. -/
structure UploadDoc where
  id : String
  question : String
  answer : String
  tags : List String
  created_at : String
deriving DecidableEq

/-- Document built from the row at 0-based position `idx` (the `DataFrame`
row index of `iterrows()`): identifier `"faq_" + str(idx)`, tags split on
commas, upload timestamp `now`. -/
def rowDoc (idx : ℕ) (now : String) (r : CsvRow) : UploadDoc :=
  ⟨"faq_" ++ toString idx, r.question, r.answer,
   (match r.tags with
    | some t => pySplitComma t
    | none => []),
   now⟩

/-- Embedding of the document-preparation loop of
`upload_faqs_from_csv`: one document per CSV row, enumerated from 0. -/
def docsFromCsv (rows : List CsvRow) (now : String) : List UploadDoc :=
  (List.enumFrom 0 rows).map fun p => rowDoc p.1 now p.2

/-- Modelled from the spec: the remote index's committed state under
document upload.  `src/` only issues `upload_documents`; the overwrite
semantics on key collision is the documented contract ("Idempotent:
re-running with identical identifiers overwrites prior content", spec §4.1)
of the external search service, modelled as an association list keyed by
document identifier: an existing key is overwritten in place, a new key is
appended. -/
def upsertDoc (m : List (String × UploadDoc)) (d : UploadDoc) :
    List (String × UploadDoc) :=
  if m.any (fun p => p.1 == d.id) then
    m.map fun p => if p.1 = d.id then (d.id, d) else p
  else m ++ [(d.id, d)]

/-- Uploading a batch: fold the upsert over the documents in order (the
fixed-size batching loop of `upload_faqs_from_csv` partitions the documents
but uploads them in the same overall order, so it is the same fold). -/
def uploadAll (m : List (String × UploadDoc)) (docs : List UploadDoc) :
    List (String × UploadDoc) :=
  docs.foldl upsertDoc m

/-- The committed identifiers of an index state. -/
def mapKeys (m : List (String × UploadDoc)) : List String := m.map Prod.fst

/-- Upserting keeps the document count when the key exists and grows it by
one otherwise. -/
theorem length_upsertDoc (m : List (String × UploadDoc)) (d : UploadDoc) :
    (upsertDoc m d).length
      = if m.any (fun p => p.1 == d.id) then m.length else m.length + 1 := by
  unfold upsertDoc
  by_cases h : m.any (fun p => p.1 == d.id)
  · rw [if_pos h, if_pos h, List.length_map]
  · rw [if_neg h, if_neg h, List.length_append, List.length_cons, List.length_nil]

/-- Upserting does not change the key sequence when the key exists, and
appends the new key otherwise. -/
theorem keys_upsertDoc (m : List (String × UploadDoc)) (d : UploadDoc) :
    mapKeys (upsertDoc m d)
      = if m.any (fun p => p.1 == d.id) then mapKeys m else mapKeys m ++ [d.id] := by
  unfold upsertDoc mapKeys
  by_cases h : m.any (fun p => p.1 == d.id)
  · rw [if_pos h, if_pos h, List.map_map]
    apply List.map_congr_left
    intro p _
    by_cases hp : p.1 = d.id
    · simp [hp]
    · simp [hp]
  · rw [if_neg h, if_neg h, List.map_append]
    rfl

/-- A key present in the state is present after any upsert. -/
theorem mem_keys_upsertDoc_of_mem (m : List (String × UploadDoc)) (d : UploadDoc)
    (k : String) (h : k ∈ mapKeys m) : k ∈ mapKeys (upsertDoc m d) := by
  rw [keys_upsertDoc]
  by_cases hc : m.any (fun p => p.1 == d.id)
  · rw [if_pos hc]
    exact h
  · rw [if_neg hc]
    exact List.mem_append_left _ h

/-- The upserted document's key is present after the upsert. -/
theorem mem_keys_upsertDoc_self (m : List (String × UploadDoc)) (d : UploadDoc) :
    d.id ∈ mapKeys (upsertDoc m d) := by
  rw [keys_upsertDoc]
  by_cases hc : m.any (fun p => p.1 == d.id)
  · rw [if_pos hc]
    obtain ⟨p, hp, hpk⟩ := List.any_eq_true.mp hc
    have : p.1 = d.id := by
      exact beq_iff_eq.mp hpk
    rw [← this]
    exact List.mem_map_of_mem Prod.fst hp
  · rw [if_neg hc]
    exact List.mem_append_right _ (List.mem_cons_self _ _)

/-- A key present in the state is present after uploading any batch. -/
theorem mem_keys_uploadAll_of_mem (docs : List UploadDoc)
    (m : List (String × UploadDoc)) (k : String) (h : k ∈ mapKeys m) :
    k ∈ mapKeys (uploadAll m docs) := by
  induction docs generalizing m with
  | nil => exact h
  | cons d ds ih => exact ih (upsertDoc m d) (mem_keys_upsertDoc_of_mem m d k h)

/-- Every uploaded document's key is committed after the upload. -/
theorem mem_keys_uploadAll (docs : List UploadDoc) (m : List (String × UploadDoc))
    (d : UploadDoc) (hd : d ∈ docs) : d.id ∈ mapKeys (uploadAll m docs) := by
  induction docs generalizing m with
  | nil => cases hd
  | cons e es ih =>
    rcases List.mem_cons.mp hd with he | hes
    · subst he
      exact mem_keys_uploadAll_of_mem es (upsertDoc m d) d.id
        (mem_keys_upsertDoc_self m d)
    · exact ih (upsertDoc m e) hes

/-- Uploading documents whose keys are all already committed leaves the
document count unchanged. -/
theorem length_uploadAll_of_keys_mem (docs : List UploadDoc)
    (m : List (String × UploadDoc)) (h : ∀ d ∈ docs, d.id ∈ mapKeys m) :
    (uploadAll m docs).length = m.length := by
  induction docs generalizing m with
  | nil => rfl
  | cons d ds ih =>
    have hd : d.id ∈ mapKeys m := h d (List.mem_cons_self d ds)
    have hany : m.any (fun p => p.1 == d.id) = true := by
      obtain ⟨p, hp, hpk⟩ := List.mem_map.mp hd
      exact List.any_eq_true.mpr ⟨p, hp, beq_iff_eq.mpr hpk⟩
    have hkeys : mapKeys (upsertDoc m d) = mapKeys m := by
      rw [keys_upsertDoc, if_pos hany]
    have hlen : (upsertDoc m d).length = m.length := by
      rw [length_upsertDoc, if_pos hany]
    have hds : ∀ e ∈ ds, e.id ∈ mapKeys (upsertDoc m d) := by
      intro e he
      rw [hkeys]
      exact h e (List.mem_cons_of_mem d he)
    calc (uploadAll (upsertDoc m d) ds).length
        = (upsertDoc m d).length := ih (upsertDoc m d) hds
      _ = m.length := hlen

/-- C7: the identifier of each uploaded FAQ record is `"faq_" + str(i)` for
its 0-based source row position `i` — deterministic in the row position and
independent of the upload timestamp — so uploading the same seed CSV twice
produces the identical identifier sequence as uploading it once, and the
second upload's identifiers all collide with committed keys and overwrite,
leaving the final document count unchanged. -/
theorem upload_csv_idempotent (rows : List CsvRow) (now now2 : String) :
    (docsFromCsv rows now).map UploadDoc.id
      = (List.enumFrom 0 rows).map (fun p => "faq_" ++ toString p.1) ∧
    (docsFromCsv rows now).map UploadDoc.id = (docsFromCsv rows now2).map UploadDoc.id ∧
    (uploadAll (uploadAll [] (docsFromCsv rows now)) (docsFromCsv rows now2)).length
      = (uploadAll [] (docsFromCsv rows now)).length := by
  have hids : ∀ nowT : String, (docsFromCsv rows nowT).map UploadDoc.id
      = (List.enumFrom 0 rows).map (fun p => "faq_" ++ toString p.1) := by
    intro nowT
    unfold docsFromCsv
    rw [List.map_map]
    rfl
  refine ⟨hids now, by rw [hids now, hids now2], ?_⟩
  apply length_uploadAll_of_keys_mem
  intro d hd
  have hid : d.id ∈ (docsFromCsv rows now2).map UploadDoc.id :=
    List.mem_map_of_mem UploadDoc.id hd
  rw [hids now2, ← hids now] at hid
  obtain ⟨d1, hd1, hd1id⟩ := List.mem_map.mp hid
  rw [← hd1id]
  exact mem_keys_uploadAll (docsFromCsv rows now) [] d1 hd1

/-- The configuration environment: the three search-related variables, each
either unset (`none`, what `os.getenv` returns) or set to a string. -/
structure Env where
  searchEndpoint : Option String
  searchKey : Option String
  searchIndexName : Option String
deriving DecidableEq

/-- Python truthiness of an optional string (`not value` is true exactly for
`None` and the empty string). -/
def pyTruthy : Option String → Bool
  | none => false
  | some s => !s.data.isEmpty

/-- A configured search helper (the constructor arguments of
`AzureCognitiveSearchHelper`). -/
structure SearchHelper where
  endpoint : String
  key : String
  indexName : String
deriving DecidableEq

/-- Embedding of `create_search_helper` (`cognitive_search.py`): the index
name is read with default `"faq-index"`
(`os.getenv("AZURE_SEARCH_INDEX_NAME", "faq-index")`); a falsy endpoint or
key yields `None` after logging an error. -/
def create_search_helper (env : Env) : Option SearchHelper :=
  let index_name :=
    match env.searchIndexName with
    | none => "faq-index"
    | some s => s
  if !pyTruthy env.searchEndpoint || !pyTruthy env.searchKey then none
  else some ⟨env.searchEndpoint.getD "", env.searchKey.getD "", index_name⟩

/-- The environment check at the top of `setup_index.py`'s `main`: the three
variables `AZURE_SEARCH_ENDPOINT`, `AZURE_SEARCH_KEY`,
`AZURE_SEARCH_INDEX_NAME` are all listed as required
(`if not os.getenv(var): missing_vars.append(var)`). -/
def setup_env_ok (env : Env) : Bool :=
  pyTruthy env.searchEndpoint && pyTruthy env.searchKey && pyTruthy env.searchIndexName

/-- Embedding of `setup_index.py`'s `main` as its success boolean.  The
remote-dependent steps are oracles: whether `create_index` succeeds, whether
`data/faqs.csv` exists, and whether the upload succeeds; the statistics step
never affects the result. -/
def setup_main (env : Env) (createIndexOk csvExists uploadOk : Bool) : Bool :=
  if !setup_env_ok env then false
  else
    match create_search_helper env with
    | none => false
    | some _ =>
      if !createIndexOk then false
      else if !csvExists then false
      else if !uploadOk then false
      else true

/-- Counterexample to C9 as stated: with the search endpoint and key set but
the index name absent, `create_search_helper` does default the index name to
`"faq-index"` — yet the setup entry point (`setup_index.py`, cited by the
claim) treats the index name as required and fails, so "startup does not
fail" is false for that startup path even with every remote step
succeeding. -/
theorem setup_requires_index_name :
    create_search_helper ⟨some "https://search.example.net", some "key123", none⟩
      = some ⟨"https://search.example.net", "key123", "faq-index"⟩ ∧
    setup_main ⟨some "https://search.example.net", some "key123", none⟩ true true true
      = false := by
  constructor
  · rfl
  · rfl

/-- C9 (amended): in the helper factory `create_search_helper` (the app's
startup path) the index name is optional — when absent the default
`"faq-index"` is used and a helper is produced — while a missing (or empty)
search endpoint or search key yields no helper instance; the setup script
`setup_index.py`, however, additionally lists the index name as required and
its `main` fails when the index name is absent, whatever the remote steps
would do. -/
theorem search_config_requirements (env : Env) :
    (env.searchIndexName = none → pyTruthy env.searchEndpoint = true →
      pyTruthy env.searchKey = true →
      create_search_helper env
        = some ⟨env.searchEndpoint.getD "", env.searchKey.getD "", "faq-index"⟩) ∧
    (pyTruthy env.searchEndpoint = false ∨ pyTruthy env.searchKey = false →
      create_search_helper env = none) ∧
    (env.searchIndexName = none →
      ∀ createIndexOk csvExists uploadOk,
        setup_main env createIndexOk csvExists uploadOk = false) := by
  refine ⟨?_, ?_, ?_⟩
  · intro hidx hep hk
    simp [create_search_helper, hidx, hep, hk]
  · intro h
    rcases h with h | h <;> simp [create_search_helper, h]
  · intro hidx a b c
    have : setup_env_ok env = false := by
      simp [setup_env_ok, hidx, pyTruthy]
    simp [setup_main, this]

/-- Witness for C9's amended theorem at a concrete environment with endpoint
and key set and the index name unset. -/
theorem search_config_requirements_witness :
    create_search_helper ⟨some "https://s.example.net", some "k1", none⟩
      = some ⟨"https://s.example.net", "k1", "faq-index"⟩ ∧
    create_search_helper ⟨none, some "k1", none⟩ = none ∧
    setup_main ⟨some "https://s.example.net", some "k1", none⟩ true true true = false :=
  ⟨(search_config_requirements ⟨some "https://s.example.net", some "k1", none⟩).1
      rfl (by decide) (by decide),
   (search_config_requirements ⟨none, some "k1", none⟩).2.1 (Or.inl rfl),
   (search_config_requirements ⟨some "https://s.example.net", some "k1", none⟩).2.2
      rfl true true true⟩

/-- One conversation turn of the transcript
(`st.session_state.messages`). -/
structure Turn where
  role : String
  content : String
  timestamp : String
deriving DecidableEq

/-- Outcome of the downstream pipeline inside the orchestrator's `try` block,
after the user turn has been appended: an exception escaping the retrieval
step, an exception escaping the generation step, an exception escaping the
suggestion step (the assistant turn was already appended by then), or full
success.  The gateways' own fail-soft handlers make exceptions unlikely, but
the orchestrator's `except` swallows any that escape. -/
inductive Downstream where
  | searchRaises (e : String)
  | generateRaises (faqs : List SearchResultDoc) (e : String)
  | suggestRaises (faqs : List SearchResultDoc) (answer : String) (e : String)
  | allOk (faqs : List SearchResultDoc) (answer : String) (suggestions : List String)

/-- Embedding of the per-turn submission logic of `app.py`'s `main`
(`if send_button and user_input.strip(): ...`): returns the new transcript
and the number of remote calls issued.  When the guard holds, the user turn
is appended first, outside the `try`; the assistant turn is appended only
when generation returns; any exception is caught after appending whatever
was appended.  When the guard fails nothing happens. -/
def submit_turn (send_button : Bool) (user_input timestamp : String)
    (messages : List Turn) (d : Downstream) : List Turn × ℕ :=
  if send_button && !(pyStrip user_input).data.isEmpty then
    let msgs1 := messages ++ [⟨"user", user_input, timestamp⟩]
    match d with
    | .searchRaises _ => (msgs1, 1)
    | .generateRaises _ _ => (msgs1, 2)
    | .suggestRaises _ answer _ => (msgs1 ++ [⟨"assistant", answer, timestamp⟩], 3)
    | .allOk _ answer _ => (msgs1 ++ [⟨"assistant", answer, timestamp⟩], 3)
  else (messages, 0)

/-- C3: for every input whose trimmed form is non-empty, submitting a turn
appends exactly one user turn (followed only by assistant turns, whatever
the downstream outcome — retrieval, generation or suggestion failure
included); and for every input that is empty or whitespace-only, submitting
leaves the transcript unchanged and issues no network calls. -/
theorem submit_turn_transcript (send_button : Bool) (user_input timestamp : String)
    (messages : List Turn) (d : Downstream) :
    (send_button = true → pyStrip user_input ≠ "" →
      ∃ rest, (submit_turn send_button user_input timestamp messages d).1
          = messages ++ (⟨"user", user_input, timestamp⟩ : Turn) :: rest ∧
        ∀ t ∈ rest, t.role = "assistant") ∧
    (pyStrip user_input = "" →
      submit_turn send_button user_input timestamp messages d = (messages, 0)) := by
  constructor
  · intro hsend hne
    have hdata : (pyStrip user_input).data.isEmpty = false := by
      cases hd : (pyStrip user_input).data with
      | nil =>
        exfalso
        apply hne
        apply String.ext
        rw [hd]
      | cons c cs => rfl
    have hguard : (send_button && !(pyStrip user_input).data.isEmpty) = true := by
      rw [hsend, hdata]
      rfl
    simp only [submit_turn, hguard, if_true]
    cases d with
    | searchRaises e =>
      refine ⟨[], rfl, ?_⟩
      intro t ht
      cases ht
    | generateRaises faqs e =>
      refine ⟨[], rfl, ?_⟩
      intro t ht
      cases ht
    | suggestRaises faqs answer e =>
      refine ⟨[⟨"assistant", answer, timestamp⟩], by simp, ?_⟩
      intro t ht
      rw [List.mem_singleton] at ht
      rw [ht]
    | allOk faqs answer suggestions =>
      refine ⟨[⟨"assistant", answer, timestamp⟩], by simp, ?_⟩
      intro t ht
      rw [List.mem_singleton] at ht
      rw [ht]
  · intro hempty
    have hguard : (send_button && !(pyStrip user_input).data.isEmpty) = false := by
      have : (pyStrip user_input).data = [] := by
        rw [hempty]
      simp [this]
    unfold submit_turn
    rw [hguard]
    rfl

/-- Witness for C3: a non-blank submission with a failing retrieval step
appends exactly the user turn; a whitespace-only submission leaves the
transcript unchanged with zero remote calls. -/
theorem submit_turn_transcript_witness :
    (∃ rest, (submit_turn true "How do I deploy?" "10:00" [] (.searchRaises "boom")).1
        = [] ++ (⟨"user", "How do I deploy?", "10:00"⟩ : Turn) :: rest ∧
      ∀ t ∈ rest, t.role = "assistant") ∧
    submit_turn true "   " "10:01" [⟨"user", "old", "09:59"⟩] (.allOk [] "a" [])
      = ([(⟨"user", "old", "09:59"⟩ : Turn)], 0) :=
  ⟨(submit_turn_transcript true "How do I deploy?" "10:00" [] (.searchRaises "boom")).1
      rfl (by decide),
   (submit_turn_transcript true "   " "10:01" [⟨"user", "old", "09:59"⟩]
      (.allOk [] "a" [])).2 (by decide)⟩
